import Mathlib

/-!
Verification of the gwy codec layer: item-store accessor, DataField codec,
selection codec, graph codec and channel assembler.

The accessor (`gwydb/gwy/gwyfile.py`) and the channel assembler
(`pygwyfile/gwychannel.py`) are translated from the repository source.
The DataField, selection and graph codec modules are not part of the
source tree (only their tests are), so those definitions are modelled
from the specification; each such definition says so in its doc comment.

Python doubles are modelled as `Rat` (no arithmetic is performed on them,
only storage and retrieval), 32-bit integers as `Int`, numpy matrices as a
row-major buffer with declared dimensions.
-/

deriving instance DecidableEq for Except

namespace GwyVerify

/-- Error kinds raised by the layer. `notFound` models `GwyfileError`
raised for a missing required item (the spec calls this NotFoundError);
`format` models `GwyfileErrorCMsg`, i.e. the native library rejecting an
object (spec: FormatError); `valueError` models Python `ValueError`
(spec: ValidationError, a violated domain invariant); `typeError` models
Python `TypeError` (a constructor argument of the wrong domain type). -/
inductive GwyErr where
  | notFound
  | format
  | valueError
  | typeError
deriving DecidableEq

/-- A numpy 2D float64 matrix: declared dimensions plus a row-major buffer. -/
structure PyMatrix where
  nrows : Nat
  ncols : Nat
  buf : List Rat
deriving DecidableEq

/-- Completed DataField metadata (all eight keys present). -/
structure GwyDFMeta where
  xres : Int
  yres : Int
  xreal : Rat
  yreal : Rat
  xoff : Rat
  yoff : Rat
  si_unit_xy : String
  si_unit_z : String
deriving DecidableEq

/-- A partial DataField metadata dictionary: `xres`/`yres` required,
the six other keys optional (absent keys decode to declared defaults). -/
structure GwyDFMetaDict where
  xres : Int
  yres : Int
  xreal : Option Rat
  yreal : Option Rat
  xoff : Option Rat
  yoff : Option Rat
  si_unit_xy : Option String
  si_unit_z : Option String
deriving DecidableEq

/-- A decoded DataField: 2D matrix plus physical-scale metadata. -/
structure GwyDataField where
  data : PyMatrix
  meta : GwyDFMeta
deriving DecidableEq

/-- Modelled from the spec: the `GwyDataField` constructor (the
`gwydatafield` module is not under the source tree).  It fills the
declared defaults for absent optional keys (`xreal=1.0`, `yreal=1.0`,
`xoff=0.0`, `yoff=0.0`, units `""`) and rejects with `ValueError` any
data whose shape differs from `(yres, xres)`; data is never reshaped. -/
def GwyDataField.init (data : PyMatrix) (meta : GwyDFMetaDict) :
    Except GwyErr GwyDataField :=
  if ((data.nrows : Int), (data.ncols : Int)) = (meta.yres, meta.xres) then
    .ok ⟨data,
      ⟨meta.xres, meta.yres, meta.xreal.getD 1, meta.yreal.getD 1,
       meta.xoff.getD 0, meta.yoff.getD 0,
       meta.si_unit_xy.getD "", meta.si_unit_z.getD ""⟩⟩
  else
    .error .valueError

/-- A native DataField sub-store: the eight metadata items (optional ones
nullable) and the bulk float64 buffer. -/
structure GwyDFStore where
  xres : Int
  yres : Int
  xreal : Option Rat
  yreal : Option Rat
  xoff : Option Rat
  yoff : Option Rat
  si_unit_xy : Option String
  si_unit_z : Option String
  data : List Rat
deriving DecidableEq

/-- Modelled from the spec: `GwyDataField.from_gwy` decode.  Reads the
eight metadata fields (defaults applied by the constructor), reads the
bulk buffer sized exactly `xres*yres` and reshapes it row-major into
`(yres, xres)`; a buffer of the wrong size is a native structural
failure (`FormatError`). -/
def GwyDataField.from_gwy (s : GwyDFStore) : Except GwyErr GwyDataField :=
  if (s.data.length : Int) = s.xres * s.yres then
    GwyDataField.init ⟨s.yres.toNat, s.xres.toNat, s.data⟩
      ⟨s.xres, s.yres, s.xreal, s.yreal, s.xoff, s.yoff,
       s.si_unit_xy, s.si_unit_z⟩
  else
    .error .format

/-- Modelled from the spec: `GwyDataField.to_gwy` encode.  Validates
`data.shape == (yres, xres)` before writing (else `ValueError`), then
writes every metadata field and the flattened row-major buffer. -/
def GwyDataField.to_gwy (df : GwyDataField) : Except GwyErr GwyDFStore :=
  if ((df.data.nrows : Int), (df.data.ncols : Int)) = (df.meta.yres, df.meta.xres) then
    .ok ⟨df.meta.xres, df.meta.yres, some df.meta.xreal, some df.meta.yreal,
         some df.meta.xoff, some df.meta.yoff,
         some df.meta.si_unit_xy, some df.meta.si_unit_z, df.data.buf⟩
  else
    .error .valueError

/-- A valid DataField: shape invariant, buffer sized to the declared
dimensions, positive resolutions. -/
def GwyDataField.valid (df : GwyDataField) : Prop :=
  (df.data.nrows : Int) = df.meta.yres ∧ (df.data.ncols : Int) = df.meta.xres ∧
  df.data.buf.length = df.data.nrows * df.data.ncols ∧
  0 < df.meta.xres ∧ 0 < df.meta.yres

instance (df : GwyDataField) : Decidable df.valid := by
  unfold GwyDataField.valid
  infer_instance

/-- Modelled from the spec: the generic selection decode, parameterized by
the per-variant point arity (1 coordinate pair per entry for Point and
Pointer, 2 for Line, Rectangle and Ellipse).  From an entry count `n` and a
buffer of `n * arity * 2` doubles it groups the values positionally into
`arity * 2`-sized coordinate tuples, preserving entry order. -/
def sel_decode (n : Nat) (arity : Nat) (buf : List Rat) : List (List Rat) :=
  match n with
  | 0 => []
  | k + 1 => buf.take (arity * 2) :: sel_decode k arity (buf.drop (arity * 2))

/-- Modelled from the spec: the generic selection encode writes the entry
count and then the flattened buffer in the same grouping order. -/
def sel_encode (tuples : List (List Rat)) : Nat × List Rat :=
  (tuples.length, tuples.flatten)

/-- Point selection: ordered sequence of (x, y) coordinate pairs. -/
structure GwyPointSelection where
  data : List (List Rat)
deriving DecidableEq

/-- Pointer selection: structurally identical to `GwyPointSelection` but a
distinct type, because consumers dispatch on identity, not shape. -/
structure GwyPointerSelection where
  data : List (List Rat)
deriving DecidableEq

/-- Line selection: ordered sequence of (x1, y1, x2, y2) quadruples. -/
structure GwyLineSelection where
  data : List (List Rat)
deriving DecidableEq

/-- Rectangle selection: ordered sequence of (x1, y1, x2, y2) quadruples. -/
structure GwyRectangleSelection where
  data : List (List Rat)
deriving DecidableEq

/-- Ellipse selection: ordered sequence of (x1, y1, x2, y2) quadruples. -/
structure GwyEllipseSelection where
  data : List (List Rat)
deriving DecidableEq

/-- The native type tag of a stored selection object. -/
inductive SelKind where
  | point
  | pointer
  | line
  | rectangle
  | ellipse
deriving DecidableEq

/-- A nested native object stored under an item key: either a DataField
sub-store or a selection sub-store (type tag, entry count, flat buffer). -/
inductive GwyObj where
  | datafield (s : GwyDFStore)
  | selection (kind : SelKind) (nsel : Nat) (buf : List Rat)
deriving DecidableEq

/-- Dispatch a stored object to the DataField decoder; the native library
rejects an object of any other type (FormatError). -/
def GwyDataField.from_gwyobj : GwyObj → Except GwyErr GwyDataField
  | .datafield s => GwyDataField.from_gwy s
  | _ => .error .format

/-- Modelled from the spec: `GwyPointSelection.from_gwy` with arity 1. -/
def GwyPointSelection.from_gwyobj : GwyObj → Except GwyErr GwyPointSelection
  | .selection .point n buf => .ok ⟨sel_decode n 1 buf⟩
  | _ => .error .format

/-- Modelled from the spec: `GwyPointSelection.to_gwy`, arity 1 encode. -/
def GwyPointSelection.to_gwyobj (s : GwyPointSelection) : GwyObj :=
  .selection .point (sel_encode s.data).1 (sel_encode s.data).2

/-- Modelled from the spec: `GwyPointerSelection.from_gwy` with arity 1. -/
def GwyPointerSelection.from_gwyobj : GwyObj → Except GwyErr GwyPointerSelection
  | .selection .pointer n buf => .ok ⟨sel_decode n 1 buf⟩
  | _ => .error .format

/-- Modelled from the spec: `GwyPointerSelection.to_gwy`, arity 1 encode. -/
def GwyPointerSelection.to_gwyobj (s : GwyPointerSelection) : GwyObj :=
  .selection .pointer (sel_encode s.data).1 (sel_encode s.data).2

/-- Modelled from the spec: `GwyLineSelection.from_gwy` with arity 2. -/
def GwyLineSelection.from_gwyobj : GwyObj → Except GwyErr GwyLineSelection
  | .selection .line n buf => .ok ⟨sel_decode n 2 buf⟩
  | _ => .error .format

/-- Modelled from the spec: `GwyLineSelection.to_gwy`, arity 2 encode. -/
def GwyLineSelection.to_gwyobj (s : GwyLineSelection) : GwyObj :=
  .selection .line (sel_encode s.data).1 (sel_encode s.data).2

/-- Modelled from the spec: `GwyRectangleSelection.from_gwy`, arity 2. -/
def GwyRectangleSelection.from_gwyobj : GwyObj → Except GwyErr GwyRectangleSelection
  | .selection .rectangle n buf => .ok ⟨sel_decode n 2 buf⟩
  | _ => .error .format

/-- Modelled from the spec: `GwyRectangleSelection.to_gwy`, arity 2 encode. -/
def GwyRectangleSelection.to_gwyobj (s : GwyRectangleSelection) : GwyObj :=
  .selection .rectangle (sel_encode s.data).1 (sel_encode s.data).2

/-- Modelled from the spec: `GwyEllipseSelection.from_gwy`, arity 2. -/
def GwyEllipseSelection.from_gwyobj : GwyObj → Except GwyErr GwyEllipseSelection
  | .selection .ellipse n buf => .ok ⟨sel_decode n 2 buf⟩
  | _ => .error .format

/-- Modelled from the spec: `GwyEllipseSelection.to_gwy`, arity 2 encode. -/
def GwyEllipseSelection.to_gwyobj (s : GwyEllipseSelection) : GwyObj :=
  .selection .ellipse (sel_encode s.data).1 (sel_encode s.data).2

/-- A value held by a Gwy data item. -/
inductive GwyItemValue where
  | bool (b : Bool)
  | int32 (n : Int)
  | double (d : Rat)
  | string (s : String)
  | object (o : GwyObj)
deriving DecidableEq

/-- The loaded item store: a `GwyContainer` mapping string keys to items
(translation of the `Gwyfile` wrapper in `gwydb/gwy/gwyfile.py`). -/
structure Gwyfile where
  items : List (String × GwyItemValue)
deriving DecidableEq

/-- Translation of `lib.gwyfile_object_get` as used by
`Gwyfile._get_gwyitem_value`: the item for a key, or nothing. -/
def Gwyfile.gwyfile_object_get (f : Gwyfile) (key : String) : Option GwyItemValue :=
  (f.items.find? (fun kv => kv.1 == key)).map (fun kv => kv.2)

/-- Translation of `Gwyfile.get_gwyitem_bool`: a Python bool, `True` only
when the item exists and holds a true value, otherwise `False` (an absent
item yields `False`, not `None`); the result is never Python `None`, so the
return type's `none` is unreachable. -/
def Gwyfile.get_gwyitem_bool (f : Gwyfile) (key : String) : Option Bool :=
  match f.gwyfile_object_get key with
  | some (.bool b) => some b
  | some _ => some false
  | none => some false

/-- Translation of `Gwyfile.get_gwyitem_string`: the stored string, or
`None` when the item is absent. -/
def Gwyfile.get_gwyitem_string (f : Gwyfile) (key : String) : Option String :=
  match f.gwyfile_object_get key with
  | some (.string s) => some s
  | _ => none

/-- Translation of `Gwyfile.get_gwyitem_object`: the stored object, or
`None` when the item is absent. -/
def Gwyfile.get_gwyitem_object (f : Gwyfile) (key : String) : Option GwyObj :=
  match f.gwyfile_object_get key with
  | some (.object o) => some o
  | _ => none

/-- Translation of `Gwyfile.get_gwyitem_int32`: the stored 32-bit integer,
or `None` when the item is absent. -/
def Gwyfile.get_gwyitem_int32 (f : Gwyfile) (key : String) : Option Int :=
  match f.gwyfile_object_get key with
  | some (.int32 n) => some n
  | _ => none

/-- Translation of `Gwyfile.get_gwyitem_double`: the stored double, or
`None` when the item is absent. -/
def Gwyfile.get_gwyitem_double (f : Gwyfile) (key : String) : Option Rat :=
  match f.gwyfile_object_get key with
  | some (.double d) => some d
  | _ => none

/-- Graph-curve display metadata: description, curve type, point type,
line style, point size, line size and three color components. -/
structure GwyGraphCurveMeta where
  description : String
  curve_type : Int
  point_type : Int
  line_style : Int
  point_size : Int
  line_size : Int
  color_red : Rat
  color_green : Rat
  color_blue : Rat
deriving DecidableEq

/-- A decoded graph curve: two equal-length float64 arrays plus metadata. -/
structure GwyGraphCurve where
  xdata : List Rat
  ydata : List Rat
  meta : GwyGraphCurveMeta
deriving DecidableEq

/-- A native graph-curve sub-store: the two bulk arrays and the nine
scalar metadata fields (the description string is nullable). -/
structure GwyGraphCurveStore where
  xdata : List Rat
  ydata : List Rat
  description : Option String
  curve_type : Int
  point_type : Int
  line_style : Int
  point_size : Int
  line_size : Int
  color_red : Rat
  color_green : Rat
  color_blue : Rat
deriving DecidableEq

/-- Modelled from the spec: `GwyGraphCurve.from_gwy` reads the nine scalar
metadata fields (a null description decodes to the empty string) and the
two bulk arrays. -/
def GwyGraphCurve.from_gwy (s : GwyGraphCurveStore) : GwyGraphCurve :=
  ⟨s.xdata, s.ydata,
   ⟨s.description.getD "", s.curve_type, s.point_type, s.line_style,
    s.point_size, s.line_size, s.color_red, s.color_green, s.color_blue⟩⟩

/-- Modelled from the spec: `GwyGraphCurve.to_gwy` is the exact inverse of
the curve decode. -/
def GwyGraphCurve.to_gwy (c : GwyGraphCurve) : GwyGraphCurveStore :=
  ⟨c.xdata, c.ydata, some c.meta.description, c.meta.curve_type,
   c.meta.point_type, c.meta.line_style, c.meta.point_size,
   c.meta.line_size, c.meta.color_red, c.meta.color_green, c.meta.color_blue⟩

/-- Graph-model metadata: curve count, title and label strings, unit
strings, the four nullable axis-range pairs (value paired with a presence
flag), logarithmic-axis booleans, label styling and grid type. -/
structure GwyGraphMeta where
  ncurves : Int
  title : String
  top_label : String
  left_label : String
  right_label : String
  bottom_label : String
  x_unit : String
  y_unit : String
  x_min : Option Rat
  x_min_set : Bool
  x_max : Option Rat
  x_max_set : Bool
  y_min : Option Rat
  y_min_set : Bool
  y_max : Option Rat
  y_max_set : Bool
  x_is_logarithmic : Bool
  y_is_logarithmic : Bool
  label_visible : Bool
  label_has_frame : Bool
  label_reverse : Bool
  label_frame_thickness : Int
  label_position : Int
  grid_type : Int
deriving DecidableEq

/-- A decoded graph model: its curves and its metadata. -/
structure GwyGraphModel where
  curves : List GwyGraphCurve
  meta : GwyGraphMeta
deriving DecidableEq

/-- A native graph-model store.  `ncurves` is nullable (it is the one
required key); the string fields are nullable; each axis-range value slot
always holds a number (possibly stray) next to its boolean flag; `curves`
is the stored array of curve sub-objects. -/
structure GwyGraphModelStore where
  ncurves : Option Int
  title : Option String
  top_label : Option String
  left_label : Option String
  right_label : Option String
  bottom_label : Option String
  x_unit : Option String
  y_unit : Option String
  x_min : Rat
  x_min_set : Bool
  x_max : Rat
  x_max_set : Bool
  y_min : Rat
  y_min_set : Bool
  y_max : Rat
  y_max_set : Bool
  x_is_logarithmic : Bool
  y_is_logarithmic : Bool
  label_visible : Bool
  label_has_frame : Bool
  label_reverse : Bool
  label_frame_thickness : Int
  label_position : Int
  grid_type : Int
  curves : List GwyGraphCurveStore
deriving DecidableEq

/-- Modelled from the spec: `GwyGraphModel._get_meta`.  Reads `ncurves`
(required, NotFoundError when absent) and the remaining metadata scalars;
null strings decode to the empty string; for each of the four axis-range
pairs the flag is read first and the paired value is propagated only when
the flag is true, otherwise the value is `none` regardless of the numeric
content stored at the value key. -/
def GwyGraphModel.get_meta (s : GwyGraphModelStore) : Except GwyErr GwyGraphMeta :=
  match s.ncurves with
  | none => .error .notFound
  | some n =>
    .ok ⟨n, s.title.getD "", s.top_label.getD "", s.left_label.getD "",
      s.right_label.getD "", s.bottom_label.getD "", s.x_unit.getD "",
      s.y_unit.getD "",
      if s.x_min_set then some s.x_min else none, s.x_min_set,
      if s.x_max_set then some s.x_max else none, s.x_max_set,
      if s.y_min_set then some s.y_min else none, s.y_min_set,
      if s.y_max_set then some s.y_max else none, s.y_max_set,
      s.x_is_logarithmic, s.y_is_logarithmic,
      s.label_visible, s.label_has_frame, s.label_reverse,
      s.label_frame_thickness, s.label_position, s.grid_type⟩

/-- Modelled from the spec: `GwyGraphModel._get_curves` fetches the stored
array of curve sub-object handles; the count argument is only the caller's
expectation and does not alter what the store holds. -/
def GwyGraphModel.get_curves (s : GwyGraphModelStore) (_ncurves : Int) :
    List GwyGraphCurveStore :=
  s.curves

/-- Modelled from the spec: the `GwyGraphModel` constructor fails with
`ValueError` when `len(curves) != meta['ncurves']`. -/
def GwyGraphModel.init (curves : List GwyGraphCurve) (meta : GwyGraphMeta) :
    Except GwyErr GwyGraphModel :=
  if (curves.length : Int) = meta.ncurves then .ok ⟨curves, meta⟩
  else .error .valueError

/-- Modelled from the spec: `GwyGraphModel.from_gwy` reads the metadata,
fetches the curve sub-objects, decodes each curve, and constructs the
model (which validates the curve count). -/
def GwyGraphModel.from_gwy (s : GwyGraphModelStore) : Except GwyErr GwyGraphModel := do
  let meta ← GwyGraphModel.get_meta s
  let curves := (GwyGraphModel.get_curves s meta.ncurves).map GwyGraphCurve.from_gwy
  GwyGraphModel.init curves meta

/-- Modelled from the spec: `GwyGraphModel.to_gwy` always writes
`ncurves = len(model.curves)` (never a stale `meta` value), writes every
metadata key, and for each axis-range pair writes the flag together with a
placeholder `0.0` value when the flag is false. -/
def GwyGraphModel.to_gwy (m : GwyGraphModel) : GwyGraphModelStore :=
  ⟨some (m.curves.length : Int), some m.meta.title, some m.meta.top_label,
   some m.meta.left_label, some m.meta.right_label, some m.meta.bottom_label,
   some m.meta.x_unit, some m.meta.y_unit,
   m.meta.x_min.getD 0, m.meta.x_min_set,
   m.meta.x_max.getD 0, m.meta.x_max_set,
   m.meta.y_min.getD 0, m.meta.y_min_set,
   m.meta.y_max.getD 0, m.meta.y_max_set,
   m.meta.x_is_logarithmic, m.meta.y_is_logarithmic,
   m.meta.label_visible, m.meta.label_has_frame, m.meta.label_reverse,
   m.meta.label_frame_thickness, m.meta.label_position, m.meta.grid_type,
   m.curves.map GwyGraphCurve.to_gwy⟩

/-- A valid graph model: the curve-count invariant holds and each nullable
axis-range value is present exactly when its paired flag is true. -/
def GwyGraphModel.valid (m : GwyGraphModel) : Prop :=
  (m.curves.length : Int) = m.meta.ncurves ∧
  m.meta.x_min.isSome = m.meta.x_min_set ∧
  m.meta.x_max.isSome = m.meta.x_max_set ∧
  m.meta.y_min.isSome = m.meta.y_min_set ∧
  m.meta.y_max.isSome = m.meta.y_max_set

instance (m : GwyGraphModel) : Decidable m.valid := by
  unfold GwyGraphModel.valid
  infer_instance

/-- A dynamically-typed Python value as passed to the `GwyChannel`
constructor: `None`, an instance of one of the domain classes, or a plain
tuple of coordinate tuples (the shape the tests feed to the selection
arguments). -/
inductive PyObj where
  | none
  | dataFieldV (df : GwyDataField)
  | pointSelV (s : GwyPointSelection)
  | pointerSelV (s : GwyPointerSelection)
  | lineSelV (s : GwyLineSelection)
  | rectangleSelV (s : GwyRectangleSelection)
  | ellipseSelV (s : GwyEllipseSelection)
  | floatTupleV (ts : List (List Rat))
deriving DecidableEq

/-- `isinstance(v, GwyDataField)` on a dynamic value. -/
def PyObj.isGwyDataField : PyObj → Bool
  | .dataFieldV _ => true
  | _ => false

/-- `isinstance(v, GwyPointSelection)` on a dynamic value. -/
def PyObj.isGwyPointSelection : PyObj → Bool
  | .pointSelV _ => true
  | _ => false

/-- `isinstance(v, GwyPointerSelection)` on a dynamic value. -/
def PyObj.isGwyPointerSelection : PyObj → Bool
  | .pointerSelV _ => true
  | _ => false

/-- `isinstance(v, GwyLineSelection)` on a dynamic value. -/
def PyObj.isGwyLineSelection : PyObj → Bool
  | .lineSelV _ => true
  | _ => false

/-- `isinstance(v, GwyRectangleSelection)` on a dynamic value. -/
def PyObj.isGwyRectangleSelection : PyObj → Bool
  | .rectangleSelV _ => true
  | _ => false

/-- `isinstance(v, GwyEllipseSelection)` on a dynamic value. -/
def PyObj.isGwyEllipseSelection : PyObj → Bool
  | .ellipseSelV _ => true
  | _ => false

/-- A decoded channel: image data plus display, mask, presentation and
selection fields (translation of the `GwyChannel` attributes). -/
structure GwyChannel where
  title : Option String
  data : GwyDataField
  visible : Bool
  palette : Option String
  range_type : Option Int
  range_min : Option Rat
  range_max : Option Rat
  mask : Option GwyDataField
  mask_red : Option Rat
  mask_green : Option Rat
  mask_blue : Option Rat
  mask_alpha : Option Rat
  show_ : Option GwyDataField
  point_selections : Option GwyPointSelection
  pointer_selections : Option GwyPointerSelection
  line_selections : Option GwyLineSelection
  rectangle_selections : Option GwyRectangleSelection
  ellipse_selections : Option GwyEllipseSelection
deriving DecidableEq

/-- The `isinstance(data, GwyDataField)` gate of `GwyChannel.__init__`:
anything else raises `TypeError`. -/
def PyObj.asGwyDataField : PyObj → Except GwyErr GwyDataField
  | .dataFieldV df => .ok df
  | _ => .error .typeError

/-- The `mask is None or isinstance(mask, GwyDataField)` gate of
`GwyChannel.__init__` (also used for `show`): else `TypeError`. -/
def PyObj.asOptGwyDataField : PyObj → Except GwyErr (Option GwyDataField)
  | .none => .ok Option.none
  | .dataFieldV df => .ok (some df)
  | _ => .error .typeError

/-- The `point_sel is None or isinstance(point_sel, GwyPointSelection)`
gate of `GwyChannel.__init__`: else `TypeError`. -/
def PyObj.asOptPointSel : PyObj → Except GwyErr (Option GwyPointSelection)
  | .none => .ok Option.none
  | .pointSelV s => .ok (some s)
  | _ => .error .typeError

/-- The `pointer_sel is None or isinstance(pointer_sel,
GwyPointerSelection)` gate of `GwyChannel.__init__`: else `TypeError`. -/
def PyObj.asOptPointerSel : PyObj → Except GwyErr (Option GwyPointerSelection)
  | .none => .ok Option.none
  | .pointerSelV s => .ok (some s)
  | _ => .error .typeError

/-- The `line_sel is None or isinstance(line_sel, GwyLineSelection)` gate
of `GwyChannel.__init__`: else `TypeError`. -/
def PyObj.asOptLineSel : PyObj → Except GwyErr (Option GwyLineSelection)
  | .none => .ok Option.none
  | .lineSelV s => .ok (some s)
  | _ => .error .typeError

/-- The `rectangle_sel is None or isinstance(rectangle_sel,
GwyRectangleSelection)` gate of `GwyChannel.__init__`: else `TypeError`. -/
def PyObj.asOptRectangleSel : PyObj → Except GwyErr (Option GwyRectangleSelection)
  | .none => .ok Option.none
  | .rectangleSelV s => .ok (some s)
  | _ => .error .typeError

/-- The `ellipse_sel is None or isinstance(ellipse_sel,
GwyEllipseSelection)` gate of `GwyChannel.__init__`: else `TypeError`. -/
def PyObj.asOptEllipseSel : PyObj → Except GwyErr (Option GwyEllipseSelection)
  | .none => .ok Option.none
  | .ellipseSelV s => .ok (some s)
  | _ => .error .typeError

/-- Translation of `GwyChannel.__init__`: the scalar attributes are stored
as given; `data` must be a `GwyDataField`; `mask` and `show` must each be
`None` or a `GwyDataField`; each selection argument must be `None` or an
instance of exactly its declared variant class; any other value raises
`TypeError`.  The checks run in the source order: data, mask, show, point,
pointer, line, rectangle, ellipse. -/
def GwyChannel.init (title : Option String) (data : PyObj) (visible : Bool)
    (palette : Option String) (range_type : Option Int)
    (range_min range_max : Option Rat)
    (mask : PyObj) (mask_red mask_green mask_blue mask_alpha : Option Rat)
    (show_ : PyObj)
    (point_sel pointer_sel line_sel rectangle_sel ellipse_sel : PyObj) :
    Except GwyErr GwyChannel := do
  let dataDF ← data.asGwyDataField
  let maskDF ← mask.asOptGwyDataField
  let showDF ← show_.asOptGwyDataField
  let pointS ← point_sel.asOptPointSel
  let pointerS ← pointer_sel.asOptPointerSel
  let lineS ← line_sel.asOptLineSel
  let rectangleS ← rectangle_sel.asOptRectangleSel
  let ellipseS ← ellipse_sel.asOptEllipseSel
  .ok ⟨title, dataDF, visible, palette, range_type, range_min, range_max,
       maskDF, mask_red, mask_green, mask_blue, mask_alpha, showDF,
       pointS, pointerS, lineS, rectangleS, ellipseS⟩

/-- Key construction for the fixed channel path templates: the decimal
channel id followed by the fixed literal segments. -/
def chKey (channel_id : Int) (suffix : String) : String :=
  "/" ++ toString channel_id ++ "/" ++ suffix

/-- Translation of `GwyChannel._get_title`: string item at
`/<id>/data/title`, or `None`. -/
def GwyChannel.get_title (f : Gwyfile) (channel_id : Int) : Option String :=
  f.get_gwyitem_string (chKey channel_id "data/title")

/-- Translation of `GwyChannel._get_palette`: string item at
`/<id>/base/palette`, or `None`. -/
def GwyChannel.get_palette (f : Gwyfile) (channel_id : Int) : Option String :=
  f.get_gwyitem_string (chKey channel_id "base/palette")

/-- Translation of `GwyChannel._get_visibility`: boolean item at
`/<id>/data/visible` (an absent item reads as `False`). -/
def GwyChannel.get_visibility (f : Gwyfile) (channel_id : Int) : Bool :=
  (f.get_gwyitem_bool (chKey channel_id "data/visible")).getD false

/-- Translation of `GwyChannel._get_range_type`: int item at
`/<id>/base/range-type`, or `None`. -/
def GwyChannel.get_range_type (f : Gwyfile) (channel_id : Int) : Option Int :=
  f.get_gwyitem_int32 (chKey channel_id "base/range-type")

/-- Translation of `GwyChannel._get_range_min`: double at `/<id>/base/min`,
or `None`. -/
def GwyChannel.get_range_min (f : Gwyfile) (channel_id : Int) : Option Rat :=
  f.get_gwyitem_double (chKey channel_id "base/min")

/-- Translation of `GwyChannel._get_range_max`: double at `/<id>/base/max`,
or `None`. -/
def GwyChannel.get_range_max (f : Gwyfile) (channel_id : Int) : Option Rat :=
  f.get_gwyitem_double (chKey channel_id "base/max")

/-- Translation of `GwyChannel._get_mask_red`: double at `/<id>/mask/red`,
or `None`. -/
def GwyChannel.get_mask_red (f : Gwyfile) (channel_id : Int) : Option Rat :=
  f.get_gwyitem_double (chKey channel_id "mask/red")

/-- Translation of `GwyChannel._get_mask_green`: double at
`/<id>/mask/green`, or `None`. -/
def GwyChannel.get_mask_green (f : Gwyfile) (channel_id : Int) : Option Rat :=
  f.get_gwyitem_double (chKey channel_id "mask/green")

/-- Translation of `GwyChannel._get_mask_blue`: double at
`/<id>/mask/blue`, or `None`. -/
def GwyChannel.get_mask_blue (f : Gwyfile) (channel_id : Int) : Option Rat :=
  f.get_gwyitem_double (chKey channel_id "mask/blue")

/-- Translation of `GwyChannel._get_mask_alpha`: double at
`/<id>/mask/alpha`, or `None`. -/
def GwyChannel.get_mask_alpha (f : Gwyfile) (channel_id : Int) : Option Rat :=
  f.get_gwyitem_double (chKey channel_id "mask/alpha")

/-- Translation of `GwyChannel._get_data`: the object at `/<id>/data` is
required; when absent a `GwyfileError` is raised ("Channel with id:<id> is
not found"), modelled as `notFound`; otherwise the object is decoded as a
DataField. -/
def GwyChannel.get_data (f : Gwyfile) (channel_id : Int) :
    Except GwyErr GwyDataField :=
  match f.get_gwyitem_object (chKey channel_id "data") with
  | some o => GwyDataField.from_gwyobj o
  | none => .error .notFound

/-- Translation of `GwyChannel._get_mask`: the object at `/<id>/mask`
decoded as a DataField when present, `None` otherwise. -/
def GwyChannel.get_mask (f : Gwyfile) (channel_id : Int) :
    Except GwyErr (Option GwyDataField) :=
  match f.get_gwyitem_object (chKey channel_id "mask") with
  | some o => (GwyDataField.from_gwyobj o).map some
  | none => .ok none

/-- Translation of `GwyChannel._get_show`: the object at `/<id>/show`
decoded as a DataField when present, `None` otherwise. -/
def GwyChannel.get_show (f : Gwyfile) (channel_id : Int) :
    Except GwyErr (Option GwyDataField) :=
  match f.get_gwyitem_object (chKey channel_id "show") with
  | some o => (GwyDataField.from_gwyobj o).map some
  | none => .ok none

/-- Translation of `GwyChannel._get_point_sel`: object at
`/<id>/select/point` decoded as a point selection when present, else
`None`. -/
def GwyChannel.get_point_sel (f : Gwyfile) (channel_id : Int) :
    Except GwyErr (Option GwyPointSelection) :=
  match f.get_gwyitem_object (chKey channel_id "select/point") with
  | some o => (GwyPointSelection.from_gwyobj o).map some
  | none => .ok none

/-- Translation of `GwyChannel._get_pointer_sel`: object at
`/<id>/select/pointer` decoded as a pointer selection when present, else
`None`. -/
def GwyChannel.get_pointer_sel (f : Gwyfile) (channel_id : Int) :
    Except GwyErr (Option GwyPointerSelection) :=
  match f.get_gwyitem_object (chKey channel_id "select/pointer") with
  | some o => (GwyPointerSelection.from_gwyobj o).map some
  | none => .ok none

/-- Translation of `GwyChannel._get_line_sel`: object at
`/<id>/select/line` decoded as a line selection when present, else
`None`. -/
def GwyChannel.get_line_sel (f : Gwyfile) (channel_id : Int) :
    Except GwyErr (Option GwyLineSelection) :=
  match f.get_gwyitem_object (chKey channel_id "select/line") with
  | some o => (GwyLineSelection.from_gwyobj o).map some
  | none => .ok none

/-- Translation of `GwyChannel._get_rectangle_sel`: object at
`/<id>/select/rectangle` decoded as a rectangle selection when present,
else `None`. -/
def GwyChannel.get_rectangle_sel (f : Gwyfile) (channel_id : Int) :
    Except GwyErr (Option GwyRectangleSelection) :=
  match f.get_gwyitem_object (chKey channel_id "select/rectangle") with
  | some o => (GwyRectangleSelection.from_gwyobj o).map some
  | none => .ok none

/-- Translation of `GwyChannel._get_ellipse_sel`: object at
`/<id>/select/ellipse` decoded as an ellipse selection when present, else
`None`. -/
def GwyChannel.get_ellipse_sel (f : Gwyfile) (channel_id : Int) :
    Except GwyErr (Option GwyEllipseSelection) :=
  match f.get_gwyitem_object (chKey channel_id "select/ellipse") with
  | some o => (GwyEllipseSelection.from_gwyobj o).map some
  | none => .ok none

/-- Wrap an optional DataField back into the dynamic value handed to the
constructor. -/
def optDF : Option GwyDataField → PyObj
  | some df => .dataFieldV df
  | none => .none

/-- Wrap an optional point selection into a dynamic value. -/
def optPointSel : Option GwyPointSelection → PyObj
  | some s => .pointSelV s
  | none => .none

/-- Wrap an optional pointer selection into a dynamic value. -/
def optPointerSel : Option GwyPointerSelection → PyObj
  | some s => .pointerSelV s
  | none => .none

/-- Wrap an optional line selection into a dynamic value. -/
def optLineSel : Option GwyLineSelection → PyObj
  | some s => .lineSelV s
  | none => .none

/-- Wrap an optional rectangle selection into a dynamic value. -/
def optRectangleSel : Option GwyRectangleSelection → PyObj
  | some s => .rectangleSelV s
  | none => .none

/-- Wrap an optional ellipse selection into a dynamic value. -/
def optEllipseSel : Option GwyEllipseSelection → PyObj
  | some s => .ellipseSelV s
  | none => .none

/-- Translation of `GwyChannel.from_gwy`: fetch every field and build the
channel through the constructor.  The fallible fetches keep the source
order (data, mask, show, point, pointer, line, rectangle, ellipse); the
infallible scalar fetches (title, visible, palette, range fields, mask
colors) are pure here and are inlined into the constructor call.  The
`data` fetch is the only required one; every other fetch yields
`None`/`False` for its own field when its key is absent. -/
def GwyChannel.from_gwy (f : Gwyfile) (channel_id : Int) :
    Except GwyErr GwyChannel := do
  let data ← GwyChannel.get_data f channel_id
  let mask ← GwyChannel.get_mask f channel_id
  let show_df ← GwyChannel.get_show f channel_id
  let point_sel ← GwyChannel.get_point_sel f channel_id
  let pointer_sel ← GwyChannel.get_pointer_sel f channel_id
  let line_sel ← GwyChannel.get_line_sel f channel_id
  let rectangle_sel ← GwyChannel.get_rectangle_sel f channel_id
  let ellipse_sel ← GwyChannel.get_ellipse_sel f channel_id
  GwyChannel.init (GwyChannel.get_title f channel_id) (PyObj.dataFieldV data)
    (GwyChannel.get_visibility f channel_id)
    (GwyChannel.get_palette f channel_id)
    (GwyChannel.get_range_type f channel_id)
    (GwyChannel.get_range_min f channel_id)
    (GwyChannel.get_range_max f channel_id)
    (optDF mask)
    (GwyChannel.get_mask_red f channel_id)
    (GwyChannel.get_mask_green f channel_id)
    (GwyChannel.get_mask_blue f channel_id)
    (GwyChannel.get_mask_alpha f channel_id)
    (optDF show_df) (optPointSel point_sel) (optPointerSel pointer_sel)
    (optLineSel line_sel) (optRectangleSel rectangle_sel)
    (optEllipseSel ellipse_sel)

/-- Binding a successful `Except` computation just applies the
continuation. -/
theorem exceptOk_bind {α β : Type} (a : α) (g : α → Except GwyErr β) :
    ((Except.ok a : Except GwyErr α) >>= g) = g a := rfl

/-- Binding an errored `Except` computation propagates the error. -/
theorem exceptErr_bind {α β : Type} (e : GwyErr) (g : α → Except GwyErr β) :
    ((Except.error e : Except GwyErr α) >>= g) = .error e := rfl

/-- A bound `Except` computation succeeds exactly when both stages do. -/
theorem exceptBind_ok_iff {α β : Type} {x : Except GwyErr α}
    {g : α → Except GwyErr β} {b : β} :
    (x >>= g) = .ok b ↔ ∃ a, x = .ok a ∧ g a = .ok b := by
  cases x <;> simp [Bind.bind, Except.bind]

/-- Decoding an encoded graph curve restores it exactly. -/
theorem GwyGraphCurve.from_to (c : GwyGraphCurve) :
    GwyGraphCurve.from_gwy c.to_gwy = c := rfl

/-- Decoding an encoded list of graph curves restores the list. -/
theorem map_from_to (l : List GwyGraphCurve) :
    l.map (GwyGraphCurve.from_gwy ∘ GwyGraphCurve.to_gwy) = l := by
  induction l with
  | nil => rfl
  | cons c l ih => simp [Function.comp, GwyGraphCurve.from_to, ih]

/-- The generic selection decode undoes the generic encode whenever every
entry tuple has exactly `arity * 2` coordinates. -/
theorem sel_decode_flatten (arity : Nat) (ts : List (List Rat))
    (h : ∀ t ∈ ts, t.length = arity * 2) :
    sel_decode ts.length arity ts.flatten = ts := by
  induction ts with
  | nil => rfl
  | cons t ts ih =>
    have ht : t.length = arity * 2 := h t (by simp)
    simp only [List.length_cons, List.flatten_cons, sel_decode]
    rw [List.take_left' ht, List.drop_left' ht,
      ih (fun u hu => h u (by simp [hu]))]

/-- The channel constructor applied to correctly wrapped optional values
always succeeds and stores each value in its own field. -/
theorem GwyChannel.init_wrapped (title : Option String) (df : GwyDataField)
    (visible : Bool) (palette : Option String) (range_type : Option Int)
    (range_min range_max : Option Rat) (m : Option GwyDataField)
    (mr mg mb ma : Option Rat) (s : Option GwyDataField)
    (p : Option GwyPointSelection) (pt : Option GwyPointerSelection)
    (l : Option GwyLineSelection) (rc : Option GwyRectangleSelection)
    (el : Option GwyEllipseSelection) :
    GwyChannel.init title (.dataFieldV df) visible palette range_type
      range_min range_max (optDF m) mr mg mb ma (optDF s) (optPointSel p)
      (optPointerSel pt) (optLineSel l) (optRectangleSel rc)
      (optEllipseSel el) =
      .ok ⟨title, df, visible, palette, range_type, range_min, range_max,
           m, mr, mg, mb, ma, s, p, pt, l, rc, el⟩ := by
  cases m <;> cases s <;> cases p <;> cases pt <;> cases l <;> cases rc <;>
    cases el <;> rfl

/-- Inversion of a successful channel decode: every fallible fetch
succeeded and every channel field is exactly its own fetch result. -/
theorem GwyChannel.from_gwy_ok_inv (f : Gwyfile) (channel_id : Int)
    (ch : GwyChannel) (h : GwyChannel.from_gwy f channel_id = .ok ch) :
    GwyChannel.get_data f channel_id = .ok ch.data ∧
    GwyChannel.get_mask f channel_id = .ok ch.mask ∧
    GwyChannel.get_show f channel_id = .ok ch.show_ ∧
    GwyChannel.get_point_sel f channel_id = .ok ch.point_selections ∧
    GwyChannel.get_pointer_sel f channel_id = .ok ch.pointer_selections ∧
    GwyChannel.get_line_sel f channel_id = .ok ch.line_selections ∧
    GwyChannel.get_rectangle_sel f channel_id = .ok ch.rectangle_selections ∧
    GwyChannel.get_ellipse_sel f channel_id = .ok ch.ellipse_selections ∧
    ch.title = GwyChannel.get_title f channel_id ∧
    ch.visible = GwyChannel.get_visibility f channel_id ∧
    ch.palette = GwyChannel.get_palette f channel_id ∧
    ch.range_type = GwyChannel.get_range_type f channel_id ∧
    ch.range_min = GwyChannel.get_range_min f channel_id ∧
    ch.range_max = GwyChannel.get_range_max f channel_id ∧
    ch.mask_red = GwyChannel.get_mask_red f channel_id ∧
    ch.mask_green = GwyChannel.get_mask_green f channel_id ∧
    ch.mask_blue = GwyChannel.get_mask_blue f channel_id ∧
    ch.mask_alpha = GwyChannel.get_mask_alpha f channel_id := by
  rw [GwyChannel.from_gwy] at h
  rw [exceptBind_ok_iff] at h; obtain ⟨data, hdata, h⟩ := h
  rw [exceptBind_ok_iff] at h; obtain ⟨mask, hmask, h⟩ := h
  rw [exceptBind_ok_iff] at h; obtain ⟨show_df, hshow, h⟩ := h
  rw [exceptBind_ok_iff] at h; obtain ⟨p, hp, h⟩ := h
  rw [exceptBind_ok_iff] at h; obtain ⟨pt, hpt, h⟩ := h
  rw [exceptBind_ok_iff] at h; obtain ⟨l, hl, h⟩ := h
  rw [exceptBind_ok_iff] at h; obtain ⟨rc, hrc, h⟩ := h
  rw [exceptBind_ok_iff] at h; obtain ⟨el, hel, h⟩ := h
  rw [GwyChannel.init_wrapped] at h
  injection h with h
  subst h
  exact ⟨hdata, hmask, hshow, hp, hpt, hl, hrc, hel, rfl, rfl, rfl, rfl,
    rfl, rfl, rfl, rfl, rfl, rfl⟩

/-- An absent item reads as `None` through the string getter. -/
theorem absent_string (f : Gwyfile) (key : String)
    (h : f.gwyfile_object_get key = none) :
    f.get_gwyitem_string key = none := by
  rw [Gwyfile.get_gwyitem_string, h]

/-- An absent item reads as `False` through the bool getter. -/
theorem absent_bool (f : Gwyfile) (key : String)
    (h : f.gwyfile_object_get key = none) :
    f.get_gwyitem_bool key = some false := by
  rw [Gwyfile.get_gwyitem_bool, h]

/-- An absent item reads as `None` through the int32 getter. -/
theorem absent_int32 (f : Gwyfile) (key : String)
    (h : f.gwyfile_object_get key = none) :
    f.get_gwyitem_int32 key = none := by
  rw [Gwyfile.get_gwyitem_int32, h]

/-- An absent item reads as `None` through the double getter. -/
theorem absent_double (f : Gwyfile) (key : String)
    (h : f.gwyfile_object_get key = none) :
    f.get_gwyitem_double key = none := by
  rw [Gwyfile.get_gwyitem_double, h]

/-- An absent item reads as `None` through the object getter. -/
theorem absent_object (f : Gwyfile) (key : String)
    (h : f.gwyfile_object_get key = none) :
    f.get_gwyitem_object key = none := by
  rw [Gwyfile.get_gwyitem_object, h]

/-- Decoding an encoded valid DataField restores it exactly. -/
theorem df_decode_encode (df : GwyDataField) (h : df.valid) :
    (df.to_gwy >>= GwyDataField.from_gwy) = .ok df := by
  obtain ⟨⟨nr, nc, buf⟩, xr, yr, xre, yre, xo, yo, su1, su2⟩ := df
  obtain ⟨h1, h2, h3, h4, h5⟩ := h
  dsimp only at h1 h2 h3 h4 h5
  rw [GwyDataField.to_gwy]
  rw [if_pos (show ((nr : Int), (nc : Int)) = (yr, xr) by rw [h1, h2])]
  rw [exceptOk_bind, GwyDataField.from_gwy]
  have hlen : ((buf.length : Nat) : Int) = xr * yr := by
    have hc : (buf.length : Int) = (nr : Int) * (nc : Int) := by exact_mod_cast h3
    rw [h1, h2, mul_comm] at hc
    exact hc
  rw [if_pos hlen, GwyDataField.init]
  have hyr : yr.toNat = nr := by rw [← h1, Int.toNat_natCast]
  have hxr : xr.toNat = nc := by rw [← h2, Int.toNat_natCast]
  rw [if_pos (show ((yr.toNat : Int), (xr.toNat : Int)) = (yr, xr) by
    rw [hyr, hxr, h1, h2])]
  simp [hyr, hxr]

/-- Decoding an encoded valid graph model restores it exactly. -/
theorem gm_decode_encode (m : GwyGraphModel) (h : m.valid) :
    GwyGraphModel.from_gwy m.to_gwy = .ok m := by
  obtain ⟨curves, nc, ti, tl, ll, rl, bl, xu, yu, xmin, xmins, xmax, xmaxs,
    ymin, ymins, ymax, ymaxs, xlog, ylog, lv, lh, lrv, lf, lp, gridt⟩ := m
  obtain ⟨hn, hx1, hx2, hy1, hy2⟩ := h
  cases xmin <;> cases xmax <;> cases ymin <;> cases ymax <;>
    simp_all [GwyGraphModel.from_gwy, GwyGraphModel.to_gwy,
      GwyGraphModel.get_meta, GwyGraphModel.get_curves, GwyGraphModel.init,
      map_from_to, Bind.bind, Except.bind]

/-- Decoding an encoded point selection restores it exactly. -/
theorem point_sel_rt (s : GwyPointSelection) (h : ∀ t ∈ s.data, t.length = 2) :
    GwyPointSelection.from_gwyobj s.to_gwyobj = .ok s := by
  obtain ⟨data⟩ := s
  simp only [GwyPointSelection.to_gwyobj, sel_encode,
    GwyPointSelection.from_gwyobj]
  rw [sel_decode_flatten 1 data (fun t ht => by simp [h t ht])]

/-- Decoding an encoded pointer selection restores it exactly. -/
theorem pointer_sel_rt (s : GwyPointerSelection)
    (h : ∀ t ∈ s.data, t.length = 2) :
    GwyPointerSelection.from_gwyobj s.to_gwyobj = .ok s := by
  obtain ⟨data⟩ := s
  simp only [GwyPointerSelection.to_gwyobj, sel_encode,
    GwyPointerSelection.from_gwyobj]
  rw [sel_decode_flatten 1 data (fun t ht => by simp [h t ht])]

/-- Decoding an encoded line selection restores it exactly. -/
theorem line_sel_rt (s : GwyLineSelection) (h : ∀ t ∈ s.data, t.length = 4) :
    GwyLineSelection.from_gwyobj s.to_gwyobj = .ok s := by
  obtain ⟨data⟩ := s
  simp only [GwyLineSelection.to_gwyobj, sel_encode,
    GwyLineSelection.from_gwyobj]
  rw [sel_decode_flatten 2 data (fun t ht => by simp [h t ht])]

/-- Decoding an encoded rectangle selection restores it exactly. -/
theorem rectangle_sel_rt (s : GwyRectangleSelection)
    (h : ∀ t ∈ s.data, t.length = 4) :
    GwyRectangleSelection.from_gwyobj s.to_gwyobj = .ok s := by
  obtain ⟨data⟩ := s
  simp only [GwyRectangleSelection.to_gwyobj, sel_encode,
    GwyRectangleSelection.from_gwyobj]
  rw [sel_decode_flatten 2 data (fun t ht => by simp [h t ht])]

/-- Decoding an encoded ellipse selection restores it exactly. -/
theorem ellipse_sel_rt (s : GwyEllipseSelection)
    (h : ∀ t ∈ s.data, t.length = 4) :
    GwyEllipseSelection.from_gwyobj s.to_gwyobj = .ok s := by
  obtain ⟨data⟩ := s
  simp only [GwyEllipseSelection.to_gwyobj, sel_encode,
    GwyEllipseSelection.from_gwyobj]
  rw [sel_decode_flatten 2 data (fun t ht => by simp [h t ht])]

/-- A concrete valid 2x3 DataField used as a test vector. -/
def dfExRT : GwyDataField :=
  ⟨⟨2, 3, [0, 1, 2, 3, 4, 5]⟩, ⟨3, 2, 1, 1, 0, 0, "m", "A"⟩⟩

/-- A concrete graph curve used as a test vector. -/
def gcEx : GwyGraphCurve := ⟨[0, 1], [2, 3], ⟨"curve", 1, 2, 0, 1, 1, 0, 0, 0⟩⟩

/-- A concrete valid one-curve graph model used as a test vector. -/
def gmExRT : GwyGraphModel :=
  ⟨[gcEx], ⟨1, "Plot", "", "", "", "", "m", "m", some 0, true, none, false,
    none, false, some 5, true, false, false, true, true, false, 1, 0, 1⟩⟩

/-- A concrete two-entry point selection used as a test vector. -/
def psEx : GwyPointSelection := ⟨[[0, 1], [2, 3]]⟩

/-- A concrete one-entry pointer selection used as a test vector. -/
def ptrEx : GwyPointerSelection := ⟨[[4, 5]]⟩

/-- A concrete one-entry line selection used as a test vector. -/
def lnEx : GwyLineSelection := ⟨[[0, 1, 2, 3]]⟩

/-- A concrete one-entry rectangle selection used as a test vector. -/
def rcEx : GwyRectangleSelection := ⟨[[0, 0, 1, 1]]⟩

/-- A concrete one-entry ellipse selection used as a test vector. -/
def elEx : GwyEllipseSelection := ⟨[[1, 2, 3, 4]]⟩

/-- The encoded store of the test-vector curve. -/
def gcsEx : GwyGraphCurveStore := GwyGraphCurve.to_gwy gcEx

/-- A concrete graph-model store: one curve, `x_min_set`/`y_min_set` false
with stray numeric content 7 and 9 at the value keys, `x_max_set` and
`y_max_set` true with stored values 8 and 10. -/
def gmsEx : GwyGraphModelStore :=
  ⟨some 1, some "t", none, none, none, none, some "m", some "m",
   7, false, 8, true, 9, false, 10, true,
   false, false, true, true, false, 1, 0, 1, [gcsEx]⟩

/-- The metadata expected from decoding `gmsEx`. -/
def gmetaEx : GwyGraphMeta :=
  ⟨1, "t", "", "", "", "", "m", "m", none, false, some 8, true,
   none, false, some 10, true, false, false, true, true, false, 1, 0, 1⟩

/-- Metadata declaring two curves, used for the curve-count mismatch. -/
def gmeta2 : GwyGraphMeta :=
  ⟨2, "Plot", "", "", "", "", "m", "m", none, false, none, false,
   none, false, none, false, false, false, true, true, false, 1, 0, 1⟩

/-- A graph-model store declaring `ncurves = 2` but holding only one curve
sub-object. -/
def gms21 : GwyGraphModelStore :=
  ⟨some 2, some "t", none, none, none, none, none, none,
   0, false, 0, false, 0, false, 0, false,
   false, false, true, true, false, 1, 0, 1, [gcsEx]⟩

/-- A concrete mismatched matrix: 2x2 data against 3x3 metadata. -/
def dMis : PyMatrix := ⟨2, 2, [0, 0, 0, 0]⟩

/-- Metadata declaring a 3x3 resolution (all optional keys absent). -/
def mMis : GwyDFMetaDict := ⟨3, 3, none, none, none, none, none, none⟩

/-- The full metadata dictionary matching the 2x3 test DataField. -/
def mdEx : GwyDFMetaDict :=
  ⟨3, 2, some 1, some 1, some 0, some 0, some "m", some "A"⟩

/-- A DataField sub-store holding a 4x4 all-zero matrix with every
optional metadata key absent. -/
def dfStore44 : GwyDFStore :=
  ⟨4, 4, none, none, none, none, none, none, List.replicate 16 0⟩

/-- The DataField expected from decoding `dfStore44`. -/
def df44 : GwyDataField :=
  ⟨⟨4, 4, List.replicate 16 0⟩, ⟨4, 4, 1, 1, 0, 0, "", ""⟩⟩

/-- A channel store containing only the `/0/data` item. -/
def chStoreEx : Gwyfile := ⟨[("/0/data", .object (.datafield dfStore44))]⟩

/-- The channel expected from decoding `chStoreEx`: only `data` populated,
every optional field `None` and `visible = False`. -/
def chEx : GwyChannel :=
  ⟨none, df44, false, none, none, none, none, none, none, none, none, none,
   none, none, none, none, none, none⟩

/-- C1: for every valid GraphModel instance (curves plus metadata
satisfying the curve-count invariant and the nullable value+flag
convention), decoding the store produced by encoding it yields a value
equal to it, exactly, on the numeric buffers and on every metadata field;
the same round-trip holds for every valid DataField and for every valid
instance of each of the five selection variants. -/
theorem C1_roundtrip :
    (∀ df : GwyDataField, df.valid →
      (df.to_gwy >>= GwyDataField.from_gwy) = .ok df) ∧
    (∀ m : GwyGraphModel, m.valid →
      GwyGraphModel.from_gwy m.to_gwy = .ok m) ∧
    (∀ s : GwyPointSelection, (∀ t ∈ s.data, t.length = 2) →
      GwyPointSelection.from_gwyobj s.to_gwyobj = .ok s) ∧
    (∀ s : GwyPointerSelection, (∀ t ∈ s.data, t.length = 2) →
      GwyPointerSelection.from_gwyobj s.to_gwyobj = .ok s) ∧
    (∀ s : GwyLineSelection, (∀ t ∈ s.data, t.length = 4) →
      GwyLineSelection.from_gwyobj s.to_gwyobj = .ok s) ∧
    (∀ s : GwyRectangleSelection, (∀ t ∈ s.data, t.length = 4) →
      GwyRectangleSelection.from_gwyobj s.to_gwyobj = .ok s) ∧
    (∀ s : GwyEllipseSelection, (∀ t ∈ s.data, t.length = 4) →
      GwyEllipseSelection.from_gwyobj s.to_gwyobj = .ok s) :=
  ⟨df_decode_encode, gm_decode_encode, point_sel_rt, pointer_sel_rt,
   line_sel_rt, rectangle_sel_rt, ellipse_sel_rt⟩

/-- Witness for C1 on concrete valid instances of every entity. -/
theorem C1_roundtrip_witness :
    dfExRT.valid ∧ (dfExRT.to_gwy >>= GwyDataField.from_gwy) = .ok dfExRT ∧
    gmExRT.valid ∧ GwyGraphModel.from_gwy gmExRT.to_gwy = .ok gmExRT ∧
    GwyPointSelection.from_gwyobj psEx.to_gwyobj = .ok psEx ∧
    GwyPointerSelection.from_gwyobj ptrEx.to_gwyobj = .ok ptrEx ∧
    GwyLineSelection.from_gwyobj lnEx.to_gwyobj = .ok lnEx ∧
    GwyRectangleSelection.from_gwyobj rcEx.to_gwyobj = .ok rcEx ∧
    GwyEllipseSelection.from_gwyobj elEx.to_gwyobj = .ok elEx :=
  ⟨by decide, C1_roundtrip.1 dfExRT (by decide),
   by decide, C1_roundtrip.2.1 gmExRT (by decide),
   C1_roundtrip.2.2.1 psEx (by decide),
   C1_roundtrip.2.2.2.1 ptrEx (by decide),
   C1_roundtrip.2.2.2.2.1 lnEx (by decide),
   C1_roundtrip.2.2.2.2.2.1 rcEx (by decide),
   C1_roundtrip.2.2.2.2.2.2 elEx (by decide)⟩

/-- C2: for each of the four GraphModel axis-range pairs, when the model
metadata decodes successfully, a false `*_set` flag yields `None` for the
paired value no matter what number sits at the value key, and a true flag
yields exactly the stored number. -/
theorem C2_axis_range_pairs (s : GwyGraphModelStore) (m : GwyGraphMeta)
    (h : GwyGraphModel.get_meta s = .ok m) :
    (s.x_min_set = false → m.x_min = none) ∧
    (s.x_min_set = true → m.x_min = some s.x_min) ∧
    (s.x_max_set = false → m.x_max = none) ∧
    (s.x_max_set = true → m.x_max = some s.x_max) ∧
    (s.y_min_set = false → m.y_min = none) ∧
    (s.y_min_set = true → m.y_min = some s.y_min) ∧
    (s.y_max_set = false → m.y_max = none) ∧
    (s.y_max_set = true → m.y_max = some s.y_max) := by
  obtain ⟨onc, ti, tl, ll, rl, bl, xu, yu, xmin, xmins, xmax, xmaxs, ymin,
    ymins, ymax, ymaxs, xlog, ylog, lv, lhf, lrv, lft, lpos, gridt, cs⟩ := s
  cases onc with
  | none => exact absurd h (by simp [GwyGraphModel.get_meta])
  | some n =>
    simp only [GwyGraphModel.get_meta, Except.ok.injEq] at h
    subst h
    exact ⟨fun hf => by simp_all, fun ht => by simp_all,
      fun hf => by simp_all, fun ht => by simp_all,
      fun hf => by simp_all, fun ht => by simp_all,
      fun hf => by simp_all, fun ht => by simp_all⟩

/-- Witness for C2 on a concrete store mixing false and true flags with
stray numeric content at the false-flag value keys. -/
theorem C2_axis_range_pairs_witness :
    GwyGraphModel.get_meta gmsEx = .ok gmetaEx ∧
    gmetaEx.x_min = none ∧ gmetaEx.x_max = some 8 ∧
    gmetaEx.y_min = none ∧ gmetaEx.y_max = some 10 :=
  have h := C2_axis_range_pairs gmsEx gmetaEx (by decide)
  ⟨by decide, h.1 rfl, h.2.2.2.1 rfl, h.2.2.2.2.1 rfl,
   h.2.2.2.2.2.2.2 rfl⟩

/-- C3: constructing a DataField from a matrix whose shape differs from
`(yres, xres)` (positive resolutions) always fails with the
ValidationError kind (Python `ValueError`), and every successfully
constructed DataField satisfies `data.shape == (yres, xres)` — the data
is never silently reshaped. -/
theorem C3_shape_invariant :
    (∀ (d : PyMatrix) (meta : GwyDFMetaDict), 0 < meta.xres → 0 < meta.yres →
      ((d.nrows : Int), (d.ncols : Int)) ≠ (meta.yres, meta.xres) →
      GwyDataField.init d meta = .error .valueError) ∧
    (∀ (d : PyMatrix) (meta : GwyDFMetaDict) (df : GwyDataField),
      GwyDataField.init d meta = .ok df →
      (df.data.nrows : Int) = df.meta.yres ∧
      (df.data.ncols : Int) = df.meta.xres) := by
  constructor
  · intro d meta _ _ hne
    rw [GwyDataField.init, if_neg hne]
  · intro d meta df h
    rw [GwyDataField.init] at h
    split at h
    · rename_i hc
      injection h with h
      subst h
      exact ⟨congrArg Prod.fst hc, congrArg Prod.snd hc⟩
    · exact absurd h (by simp)

/-- Witness for C3: a 2x2 matrix against 3x3 metadata is rejected with
`ValueError`, and a successful construction satisfies the shape
invariant. -/
theorem C3_shape_invariant_witness :
    (0 < mMis.xres ∧ 0 < mMis.yres ∧
     ((dMis.nrows : Int), (dMis.ncols : Int)) ≠ (mMis.yres, mMis.xres) ∧
     GwyDataField.init dMis mMis = .error .valueError) ∧
    (GwyDataField.init dfExRT.data mdEx = .ok dfExRT ∧
     ((dfExRT.data.nrows : Int) = dfExRT.meta.yres ∧
      (dfExRT.data.ncols : Int) = dfExRT.meta.xres)) :=
  ⟨⟨by decide, by decide, by decide,
    C3_shape_invariant.1 dMis mMis (by decide) (by decide) (by decide)⟩,
   ⟨by decide,
    C3_shape_invariant.2 dfExRT.data mdEx dfExRT (by decide)⟩⟩

/-- C4: constructing a GraphModel from a curve list whose length differs
from `meta['ncurves']` always fails with the ValidationError kind (Python
`ValueError`); in particular decoding a model store declaring
`ncurves = 2` with only one curve sub-object fails the same way. -/
theorem C4_curve_count :
    (∀ (curves : List GwyGraphCurve) (meta : GwyGraphMeta),
      (curves.length : Int) ≠ meta.ncurves →
      GwyGraphModel.init curves meta = .error .valueError) ∧
    GwyGraphModel.from_gwy gms21 = .error .valueError := by
  constructor
  · intro curves meta hne
    rw [GwyGraphModel.init, if_neg hne]
  · decide

/-- Witness for C4 at a one-curve list against metadata declaring two
curves. -/
theorem C4_curve_count_witness :
    (([gcEx].length : Int) ≠ gmeta2.ncurves) ∧
    GwyGraphModel.init [gcEx] gmeta2 = .error .valueError :=
  ⟨by decide, C4_curve_count.1 [gcEx] gmeta2 (by decide)⟩

/-- C5: encoding a GraphModel always writes `ncurves` as the length of the
curve list — never any value carried in the metadata — and the count
written equals the number of curve sub-objects written. -/
theorem C5_encode_ncurves (m : GwyGraphModel) :
    (GwyGraphModel.to_gwy m).ncurves = some (m.curves.length : Int) ∧
    (GwyGraphModel.to_gwy m).curves.length = m.curves.length :=
  ⟨rfl, by simp [GwyGraphModel.to_gwy]⟩

/-- C6 counterexample: on the empty store, `get_gwyitem_bool` applied to
an absent key returns Python `False` (`some false`), not `None`, so the
claim that all five typed reads return `None` for an absent key is false;
the code's own docstring documents the `False` return. -/
theorem C6_get_bool_counterexample :
    Gwyfile.gwyfile_object_get ⟨[]⟩ "key" = none ∧
    Gwyfile.get_gwyitem_bool ⟨[]⟩ "key" = some false ∧
    (some false : Option Bool) ≠ (none : Option Bool) :=
  ⟨rfl, rfl, by decide⟩

/-- C6 (amended): for every store and absent key, the int32, double,
string and object getters return `None`, while the bool getter returns
`False`. -/
theorem C6_absent_key_getters (f : Gwyfile) (key : String)
    (h : f.gwyfile_object_get key = none) :
    f.get_gwyitem_bool key = some false ∧
    f.get_gwyitem_int32 key = none ∧
    f.get_gwyitem_double key = none ∧
    f.get_gwyitem_string key = none ∧
    f.get_gwyitem_object key = none :=
  ⟨absent_bool f key h, absent_int32 f key h, absent_double f key h,
   absent_string f key h, absent_object f key h⟩

/-- Witness for C6 on the empty store. -/
theorem C6_absent_key_getters_witness :
    Gwyfile.gwyfile_object_get ⟨[]⟩ "key" = none ∧
    (Gwyfile.get_gwyitem_bool ⟨[]⟩ "key" = some false ∧
     Gwyfile.get_gwyitem_int32 ⟨[]⟩ "key" = none ∧
     Gwyfile.get_gwyitem_double ⟨[]⟩ "key" = none ∧
     Gwyfile.get_gwyitem_string ⟨[]⟩ "key" = none ∧
     Gwyfile.get_gwyitem_object ⟨[]⟩ "key" = none) :=
  ⟨rfl, C6_absent_key_getters ⟨[]⟩ "key" rfl⟩

/-- C7: when the required `/<id>/data` key is absent from the store, the
channel decode fails with the NotFoundError kind and no channel is
produced. -/
theorem C7_missing_data_aborts (f : Gwyfile) (channel_id : Int)
    (h : f.gwyfile_object_get (chKey channel_id "data") = none) :
    GwyChannel.from_gwy f channel_id = .error .notFound := by
  have hdata : GwyChannel.get_data f channel_id = .error .notFound := by
    rw [GwyChannel.get_data, absent_object f _ h]
  rw [GwyChannel.from_gwy, hdata]
  rfl

/-- Witness for C7 on the empty store. -/
theorem C7_missing_data_aborts_witness :
    Gwyfile.gwyfile_object_get ⟨[]⟩ (chKey 0 "data") = none ∧
    GwyChannel.from_gwy ⟨[]⟩ 0 = .error .notFound :=
  ⟨rfl, C7_missing_data_aborts ⟨[]⟩ 0 rfl⟩

/-- C8: in every successful channel decode each optional key was fetched
independently — an absent optional key yields `None` (`False` for
`visible`) for its own field only — and the store holding only `/0/data`
(a 4x4 all-zero matrix, default units) decodes to a channel with
`title=None`, `visible=False`, `mask=None`, `show=None`, every selection
`None` and `data.data.shape == (4,4)`. -/
theorem C8_optional_fields :
    (∀ (f : Gwyfile) (channel_id : Int) (ch : GwyChannel),
      GwyChannel.from_gwy f channel_id = .ok ch →
      (f.gwyfile_object_get (chKey channel_id "data/title") = none →
        ch.title = none) ∧
      (f.gwyfile_object_get (chKey channel_id "data/visible") = none →
        ch.visible = false) ∧
      (f.gwyfile_object_get (chKey channel_id "base/palette") = none →
        ch.palette = none) ∧
      (f.gwyfile_object_get (chKey channel_id "base/range-type") = none →
        ch.range_type = none) ∧
      (f.gwyfile_object_get (chKey channel_id "base/min") = none →
        ch.range_min = none) ∧
      (f.gwyfile_object_get (chKey channel_id "base/max") = none →
        ch.range_max = none) ∧
      (f.gwyfile_object_get (chKey channel_id "mask") = none →
        ch.mask = none) ∧
      (f.gwyfile_object_get (chKey channel_id "mask/red") = none →
        ch.mask_red = none) ∧
      (f.gwyfile_object_get (chKey channel_id "mask/green") = none →
        ch.mask_green = none) ∧
      (f.gwyfile_object_get (chKey channel_id "mask/blue") = none →
        ch.mask_blue = none) ∧
      (f.gwyfile_object_get (chKey channel_id "mask/alpha") = none →
        ch.mask_alpha = none) ∧
      (f.gwyfile_object_get (chKey channel_id "show") = none →
        ch.show_ = none) ∧
      (f.gwyfile_object_get (chKey channel_id "select/point") = none →
        ch.point_selections = none) ∧
      (f.gwyfile_object_get (chKey channel_id "select/pointer") = none →
        ch.pointer_selections = none) ∧
      (f.gwyfile_object_get (chKey channel_id "select/line") = none →
        ch.line_selections = none) ∧
      (f.gwyfile_object_get (chKey channel_id "select/rectangle") = none →
        ch.rectangle_selections = none) ∧
      (f.gwyfile_object_get (chKey channel_id "select/ellipse") = none →
        ch.ellipse_selections = none)) ∧
    GwyChannel.from_gwy chStoreEx 0 = .ok chEx := by
  constructor
  · intro f channel_id ch h
    obtain ⟨hdata, hmask, hshow, hpsel, hptsel, hlsel, hrcsel, helsel, hti,
      hvis, hpal, hrt, hrmin, hrmax, hmr, hmg, hmb, hma⟩ :=
      GwyChannel.from_gwy_ok_inv f channel_id ch h
    refine ⟨?_, ?_, ?_, ?_, ?_, ?_, ?_, ?_, ?_, ?_, ?_, ?_, ?_, ?_, ?_, ?_, ?_⟩
    · intro hk
      rw [hti, GwyChannel.get_title, absent_string f _ hk]
    · intro hk
      rw [hvis, GwyChannel.get_visibility, absent_bool f _ hk]
      rfl
    · intro hk
      rw [hpal, GwyChannel.get_palette, absent_string f _ hk]
    · intro hk
      rw [hrt, GwyChannel.get_range_type, absent_int32 f _ hk]
    · intro hk
      rw [hrmin, GwyChannel.get_range_min, absent_double f _ hk]
    · intro hk
      rw [hrmax, GwyChannel.get_range_max, absent_double f _ hk]
    · intro hk
      have hm : GwyChannel.get_mask f channel_id = .ok none := by
        rw [GwyChannel.get_mask, absent_object f _ hk]
      rw [hm] at hmask
      injection hmask with hmask
      exact hmask.symm
    · intro hk
      rw [hmr, GwyChannel.get_mask_red, absent_double f _ hk]
    · intro hk
      rw [hmg, GwyChannel.get_mask_green, absent_double f _ hk]
    · intro hk
      rw [hmb, GwyChannel.get_mask_blue, absent_double f _ hk]
    · intro hk
      rw [hma, GwyChannel.get_mask_alpha, absent_double f _ hk]
    · intro hk
      have hs : GwyChannel.get_show f channel_id = .ok none := by
        rw [GwyChannel.get_show, absent_object f _ hk]
      rw [hs] at hshow
      injection hshow with hshow
      exact hshow.symm
    · intro hk
      have hp : GwyChannel.get_point_sel f channel_id = .ok none := by
        rw [GwyChannel.get_point_sel, absent_object f _ hk]
      rw [hp] at hpsel
      injection hpsel with hpsel
      exact hpsel.symm
    · intro hk
      have hp : GwyChannel.get_pointer_sel f channel_id = .ok none := by
        rw [GwyChannel.get_pointer_sel, absent_object f _ hk]
      rw [hp] at hptsel
      injection hptsel with hptsel
      exact hptsel.symm
    · intro hk
      have hp : GwyChannel.get_line_sel f channel_id = .ok none := by
        rw [GwyChannel.get_line_sel, absent_object f _ hk]
      rw [hp] at hlsel
      injection hlsel with hlsel
      exact hlsel.symm
    · intro hk
      have hp : GwyChannel.get_rectangle_sel f channel_id = .ok none := by
        rw [GwyChannel.get_rectangle_sel, absent_object f _ hk]
      rw [hp] at hrcsel
      injection hrcsel with hrcsel
      exact hrcsel.symm
    · intro hk
      have hp : GwyChannel.get_ellipse_sel f channel_id = .ok none := by
        rw [GwyChannel.get_ellipse_sel, absent_object f _ hk]
      rw [hp] at helsel
      injection helsel with helsel
      exact helsel.symm
  · decide

/-- Witness for C8: the /0/data-only scenario store, at which the
decode succeeds and the absent title key yields a `None` title. -/
theorem C8_optional_fields_witness :
    GwyChannel.from_gwy chStoreEx 0 = .ok chEx ∧
    Gwyfile.gwyfile_object_get chStoreEx (chKey 0 "data/title") = none ∧
    chEx.title = none :=
  ⟨by decide, by decide,
   (C8_optional_fields.1 chStoreEx 0 chEx (by decide)).1 (by decide)⟩

/-- C9 counterexample: supplying a `GwyPointerSelection` instance as the
`point_sel` argument makes the channel constructor fail with the
TypeError kind, which is not the ValidationError kind (Python
`ValueError`) that the claim names. -/
theorem C9_wrong_selection_type_counterexample :
    GwyChannel.init (some "Title") (.dataFieldV df44) false none none none
      none PyObj.none none none none none PyObj.none
      (PyObj.pointerSelV ⟨[]⟩) PyObj.none PyObj.none PyObj.none PyObj.none
      = .error .typeError ∧
    GwyErr.typeError ≠ GwyErr.valueError :=
  ⟨rfl, by decide⟩

/-- C9 (amended): supplying any value that is neither `None` nor an
instance of the declared selection variant class to a typed selection
argument of the channel constructor fails with the TypeError kind (the
spec's TypeError-equivalent), for each of the five selection fields;
Point and Pointer selections remain distinguishable by type even though
structurally identical. -/
theorem C9_wrong_selection_type :
    (∀ (title : Option String) (df : GwyDataField) (v : PyObj),
      v ≠ PyObj.none → v.isGwyPointSelection = false →
      GwyChannel.init title (.dataFieldV df) false none none none none
        PyObj.none none none none none PyObj.none v PyObj.none PyObj.none
        PyObj.none PyObj.none = .error .typeError) ∧
    (∀ (title : Option String) (df : GwyDataField) (v : PyObj),
      v ≠ PyObj.none → v.isGwyPointerSelection = false →
      GwyChannel.init title (.dataFieldV df) false none none none none
        PyObj.none none none none none PyObj.none PyObj.none v PyObj.none
        PyObj.none PyObj.none = .error .typeError) ∧
    (∀ (title : Option String) (df : GwyDataField) (v : PyObj),
      v ≠ PyObj.none → v.isGwyLineSelection = false →
      GwyChannel.init title (.dataFieldV df) false none none none none
        PyObj.none none none none none PyObj.none PyObj.none PyObj.none v
        PyObj.none PyObj.none = .error .typeError) ∧
    (∀ (title : Option String) (df : GwyDataField) (v : PyObj),
      v ≠ PyObj.none → v.isGwyRectangleSelection = false →
      GwyChannel.init title (.dataFieldV df) false none none none none
        PyObj.none none none none none PyObj.none PyObj.none PyObj.none
        PyObj.none v PyObj.none = .error .typeError) ∧
    (∀ (title : Option String) (df : GwyDataField) (v : PyObj),
      v ≠ PyObj.none → v.isGwyEllipseSelection = false →
      GwyChannel.init title (.dataFieldV df) false none none none none
        PyObj.none none none none none PyObj.none PyObj.none PyObj.none
        PyObj.none PyObj.none v = .error .typeError) ∧
    (∀ (a : GwyPointSelection) (b : GwyPointerSelection),
      PyObj.pointSelV a ≠ PyObj.pointerSelV b) := by
  refine ⟨?_, ?_, ?_, ?_, ?_, fun a b h => PyObj.noConfusion h⟩
  · intro title df v hne hno
    cases v
    case none => exact absurd rfl hne
    case pointSelV s => exact absurd hno (by simp [PyObj.isGwyPointSelection])
    all_goals rfl
  · intro title df v hne hno
    cases v
    case none => exact absurd rfl hne
    case pointerSelV s =>
      exact absurd hno (by simp [PyObj.isGwyPointerSelection])
    all_goals rfl
  · intro title df v hne hno
    cases v
    case none => exact absurd rfl hne
    case lineSelV s => exact absurd hno (by simp [PyObj.isGwyLineSelection])
    all_goals rfl
  · intro title df v hne hno
    cases v
    case none => exact absurd rfl hne
    case rectangleSelV s =>
      exact absurd hno (by simp [PyObj.isGwyRectangleSelection])
    all_goals rfl
  · intro title df v hne hno
    cases v
    case none => exact absurd rfl hne
    case ellipseSelV s =>
      exact absurd hno (by simp [PyObj.isGwyEllipseSelection])
    all_goals rfl

/-- Witness for C9 (amended) at a pointer-selection instance supplied as
`point_sel`. -/
theorem C9_wrong_selection_type_witness :
    (PyObj.pointerSelV ⟨[]⟩ ≠ PyObj.none) ∧
    (PyObj.pointerSelV ⟨[]⟩).isGwyPointSelection = false ∧
    GwyChannel.init (some "Title") (.dataFieldV df44) false none none none
      none PyObj.none none none none none PyObj.none
      (PyObj.pointerSelV ⟨[]⟩) PyObj.none PyObj.none PyObj.none PyObj.none
      = .error .typeError :=
  ⟨by decide, by decide,
   C9_wrong_selection_type.1 (some "Title") df44 (PyObj.pointerSelV ⟨[]⟩)
     (by decide) (by decide)⟩

/-- C10: a DataField constructed, or decoded, with every optional metadata
key absent carries exactly the default metadata `xreal=1.0`, `yreal=1.0`,
`xoff=0.0`, `yoff=0.0`, `si_unit_xy=""`, `si_unit_z=""` alongside the
required `xres` and `yres`. -/
theorem C10_default_metadata :
    (∀ (d : PyMatrix) (xres yres : Int) (df : GwyDataField),
      GwyDataField.init d ⟨xres, yres, none, none, none, none, none, none⟩
        = .ok df →
      df.meta = ⟨xres, yres, 1, 1, 0, 0, "", ""⟩) ∧
    (∀ (s : GwyDFStore) (df : GwyDataField),
      s.xreal = none → s.yreal = none → s.xoff = none → s.yoff = none →
      s.si_unit_xy = none → s.si_unit_z = none →
      GwyDataField.from_gwy s = .ok df →
      df.meta = ⟨s.xres, s.yres, 1, 1, 0, 0, "", ""⟩) := by
  constructor
  · intro d xres yres df h
    rw [GwyDataField.init] at h
    split at h
    · injection h with h
      subst h
      rfl
    · exact absurd h (by simp)
  · intro s df h1 h2 h3 h4 h5 h6 h
    rw [GwyDataField.from_gwy] at h
    split at h
    · rw [GwyDataField.init] at h
      split at h
      · injection h with h
        subst h
        dsimp only
        rw [h1, h2, h3, h4, h5, h6]
        rfl
      · exact absurd h (by simp)
    · exact absurd h (by simp)

/-- Witness for C10 on the 4x4 all-zero DataField, constructed and
decoded. -/
theorem C10_default_metadata_witness :
    (GwyDataField.init ⟨4, 4, List.replicate 16 0⟩
       ⟨4, 4, none, none, none, none, none, none⟩ = .ok df44 ∧
     df44.meta = ⟨4, 4, 1, 1, 0, 0, "", ""⟩) ∧
    (GwyDataField.from_gwy dfStore44 = .ok df44 ∧
     df44.meta = ⟨dfStore44.xres, dfStore44.yres, 1, 1, 0, 0, "", ""⟩) :=
  ⟨⟨by decide,
    C10_default_metadata.1 ⟨4, 4, List.replicate 16 0⟩ 4 4 df44 (by decide)⟩,
   ⟨by decide,
    C10_default_metadata.2 dfStore44 df44 rfl rfl rfl rfl rfl rfl
      (by decide)⟩⟩

end GwyVerify
